import Mathlib

/-!
Verification development for the document-retrieval pipeline:
query preprocessing, predicate building, vector-store search, deletion
validation, index creation, embedding canonicalization and response
synthesis context projection.

Shallow embedding conventions: Python dicts become association lists
(List (String × String)), datetimes become Nat timestamps, float
distances become rationals, fallible calls return Except, and the
external OpenAI / timescale-vector clients become explicit function
parameters or, where their behavior decides a claim, definitions
modelled from the spec (marked as such in their doc comments).
-/

namespace AIHackathon

/-- Closed enumeration of document senders, from the pydantic model
UserQuestionPreprocessing in DB/app/services/synthesizer.py
(Literal of Employment Agency, Tax, Health, Immigration, Other). -/
inductive Sender
  | employmentAgency
  | tax
  | health
  | immigration
  | other
deriving DecidableEq, Repr

/-- String rendering of each Sender enumeration value, exactly the
Literal strings of the pydantic schema. -/
def Sender.str : Sender → String
  | .employmentAgency => "Employment Agency"
  | .tax => "Tax"
  | .health => "Health"
  | .immigration => "Immigration"
  | .other => "Other"

/-- Closed enumeration of document recipients, from the pydantic model
UserQuestionPreprocessing in DB/app/services/synthesizer.py. -/
inductive AddressedTo
  | arturGrygorian
  | nuneGrygorian
deriving DecidableEq, Repr

/-- String rendering of each AddressedTo enumeration value. -/
def AddressedTo.str : AddressedTo → String
  | .arturGrygorian => "Artur Grygorian"
  | .nuneGrygorian => "Nune Grygorian"

/-- Time window extracted from a question; pydantic model TimeFilter in
DB/app/services/synthesizer.py. Datetimes are modelled as Nat
timestamps. -/
structure TimeFilter where
  start_date : Option Nat
  end_date : Option Nat
deriving DecidableEq, Repr

/-- Structured constraints extracted from a user question; pydantic
model UserQuestionPreprocessing in DB/app/services/synthesizer.py. -/
structure UserQuestionPreprocessing where
  question : String
  sender : Option Sender
  addressed_to : Option AddressedTo
  time_filter : Option TimeFilter
deriving DecidableEq, Repr

/-- Modelled from the spec: the timescale_vector client.Predicates
class (external library, not in src/): a boolean expression tree over
metadata fields with leaf comparisons (field, operator, value) combined
with AND and OR. -/
inductive Predicates
  | comparison (field : String) (op : String) (value : String)
  | and (p q : Predicates)
  | or (p q : Predicates)
deriving DecidableEq, Repr

/-- Modelled from the spec: evaluation of a Predicates tree against a
metadata mapping. This repository only ever builds equality
comparisons, so only the operators == and != are given semantics; the
ordering operators (unused by the code under verification) evaluate to
false. -/
def Predicates.eval (p : Predicates) (metadata : List (String × String)) : Bool :=
  match p with
  | .comparison field op value =>
      match op with
      | "==" => metadata.lookup field == some value
      | "!=" => !(metadata.lookup field == some value)
      | _ => false
  | .and p q => p.eval metadata && q.eval metadata
  | .or p q => p.eval metadata || q.eval metadata

/-- Embedding of QueryProcessor._build_predicates
(DB/app/query_processor.py lines 76 to 102): one leaf predicate per
present field (the sender leaf compares the metadata field named
category, exactly as written in the source; the addressed_to leaf
compares the field named addressed_to), then a left fold combining the
collected leaves with OR. -/
def buildPredicates (pre : UserQuestionPreprocessing) : Option Predicates :=
  let predicatesList : List Predicates :=
    (match pre.sender with
      | some s => [Predicates.comparison "category" "==" s.str]
      | none => []) ++
    (match pre.addressed_to with
      | some a => [Predicates.comparison "addressed_to" "==" a.str]
      | none => [])
  predicatesList.foldl
    (fun finalPredicate p =>
      match finalPredicate with
      | none => some p
      | some q => some (q.or p))
    none

/-- Row shape consumed by prepare_record in DB_1/app/insert_vectors.py:
the analyzed-document JSON fields. The required_actions list is
flattened to one string here since only the metadata keys matter for
the claims below. -/
structure DocRow where
  title_in_original_language : String
  title_in_english : String
  sender : String
  sent_date : String
  addressed_to : String
  content_in_original_language : String
  content_in_english : String
  summary_in_english : String
  required_actions : List String
deriving Repr

/-- Embedding of the metadata dict built by prepare_record
(DB_1/app/insert_vectors.py lines 36 to 45): every field except
content_in_english, keyed by its own name. In particular the sender
value is stored under the key sender, not under category. -/
def prepareRecordMetadata (row : DocRow) : List (String × String) :=
  [("title_in_original_language", row.title_in_original_language),
   ("title_in_english", row.title_in_english),
   ("sender", row.sender),
   ("sent_date", row.sent_date),
   ("addressed_to", row.addressed_to),
   ("content_in_original_language", row.content_in_original_language),
   ("summary_in_english", row.summary_in_english),
   ("required_actions", String.intercalate ", " row.required_actions)]

/-- Concrete ingested row whose sender is Tax, used to evaluate the
built sender predicate against a record that the ingestion pipeline
actually stores. -/
def taxRowExample : DocRow :=
  { title_in_original_language := "Steuerbescheid"
    title_in_english := "Tax assessment"
    sender := "Tax"
    sent_date := "2024-05-10"
    addressed_to := "Artur Grygorian"
    content_in_original_language := "Inhalt"
    content_in_english := "Body"
    summary_in_english := "Summary"
    required_actions := ["Pay by June"] }

/-- C1: when both sender and addressed_to are present, _build_predicates
returns the two leaf comparisons combined with logical OR, so a
metadata record satisfying either leaf alone satisfies the built
predicate. -/
theorem build_predicates_or_semantics (pre : UserQuestionPreprocessing)
    (s : Sender) (a : AddressedTo)
    (hs : pre.sender = some s) (ha : pre.addressed_to = some a) :
    buildPredicates pre =
      some ((Predicates.comparison "category" "==" s.str).or
            (Predicates.comparison "addressed_to" "==" a.str)) ∧
    ∀ md : List (String × String),
      ((Predicates.comparison "category" "==" s.str).eval md = true ∨
       (Predicates.comparison "addressed_to" "==" a.str).eval md = true) →
      ((Predicates.comparison "category" "==" s.str).or
        (Predicates.comparison "addressed_to" "==" a.str)).eval md = true := by
  constructor
  · simp [buildPredicates, hs, ha]
  · intro md h
    rcases h with h | h <;> simp [Predicates.eval] at h ⊢ <;> simp [h]

/-- Witness for C1: for the constraints (sender Tax, addressed_to Nune
Grygorian) the built OR predicate accepts a metadata record matching
only the sender leaf. -/
theorem build_predicates_or_semantics_witness :
    ((Predicates.comparison "category" "==" Sender.tax.str).or
      (Predicates.comparison "addressed_to" "==" AddressedTo.nuneGrygorian.str)).eval
        [("category", "Tax")] = true :=
  (build_predicates_or_semantics
      ⟨"q", some Sender.tax, some AddressedTo.nuneGrygorian, none⟩
      Sender.tax AddressedTo.nuneGrygorian rfl rfl).2
    [("category", "Tax")] (Or.inl (by decide))

/-- C2: with only sender present the code builds a single leaf
comparison, but over the metadata field named category, while
prepare_record stores the sender value under the key sender; the built
predicate therefore rejects every record the ingestion pipeline
produces, even one whose sender is exactly the extracted value. -/
theorem build_predicates_sender_field_mismatch :
    buildPredicates ⟨"q", some Sender.tax, none, none⟩ =
      some (Predicates.comparison "category" "==" "Tax") ∧
    (prepareRecordMetadata taxRowExample).lookup "sender" = some "Tax" ∧
    (prepareRecordMetadata taxRowExample).lookup "category" = none ∧
    (Predicates.comparison "category" "==" "Tax").eval
      (prepareRecordMetadata taxRowExample) = false := by
  refine ⟨by simp [buildPredicates, Sender.str], by decide, by decide, by decide⟩

/-- Helper: with neither sender nor addressed_to present,
_build_predicates collects no leaves and its fold returns none. -/
theorem build_predicates_empty (pre : UserQuestionPreprocessing)
    (hs : pre.sender = none) (ha : pre.addressed_to = none) :
    buildPredicates pre = none := by
  simp [buildPredicates, hs, ha]

/-- Outcome of a VectorStore.delete call: which underlying client
operation is invoked. The noOp constructor mirrors the fall-through of
the Python if/elif chain (unreachable once validation passed). -/
inductive DeleteAction
  | deleteAll
  | deleteByIds (ids : List String)
  | deleteByMetadata (metadata_filter : List (String × String))
  | noOp
deriving DecidableEq, Repr

/-- Python truthiness of an optional list-like argument: None is
falsy, and an empty list or empty dict is falsy too. -/
def truthyList {α : Type} : Option (List α) → Bool
  | none => false
  | some l => !l.isEmpty

/-- Number of truthy deletion modes, mirroring the expression
sum of bool(x) for x in (ids, metadata_filter, delete_all) at
DB_WIP/app/database/vector_store.py line 217. -/
def deleteModeCount (ids : Option (List String))
    (metadata_filter : Option (List (String × String))) (delete_all : Bool) : Nat :=
  (if truthyList ids then 1 else 0) +
  (if truthyList metadata_filter then 1 else 0) +
  (if delete_all then 1 else 0)

/-- Embedding of VectorStore.delete (DB_WIP/app/database/vector_store.py
lines 191 to 234): raise ValueError unless exactly one of the three
deletion modes is truthy, then dispatch in the order delete_all, ids,
metadata_filter. -/
def delete (ids : Option (List String))
    (metadata_filter : Option (List (String × String))) (delete_all : Bool) :
    Except String DeleteAction :=
  if deleteModeCount ids metadata_filter delete_all ≠ 1 then
    Except.error "Provide exactly one of: ids, metadata_filter, or delete_all"
  else if delete_all then
    Except.ok DeleteAction.deleteAll
  else if truthyList ids then
    Except.ok (DeleteAction.deleteByIds (ids.getD []))
  else if truthyList metadata_filter then
    Except.ok (DeleteAction.deleteByMetadata (metadata_filter.getD []))
  else
    Except.ok DeleteAction.noOp

/-- C4: delete raises the validation error exactly when the number of
present (truthy) deletion modes differs from one, and with exactly one
mode present it performs precisely the corresponding operation. -/
theorem delete_exactly_one_mode (ids : Option (List String))
    (metadata_filter : Option (List (String × String))) (delete_all : Bool) :
    ((∃ e, delete ids metadata_filter delete_all = Except.error e) ↔
      deleteModeCount ids metadata_filter delete_all ≠ 1) ∧
    (deleteModeCount ids metadata_filter delete_all = 1 →
      (delete_all = true →
        delete ids metadata_filter delete_all = Except.ok DeleteAction.deleteAll) ∧
      (truthyList ids = true →
        delete ids metadata_filter delete_all =
          Except.ok (DeleteAction.deleteByIds (ids.getD []))) ∧
      (truthyList metadata_filter = true →
        delete ids metadata_filter delete_all =
          Except.ok (DeleteAction.deleteByMetadata (metadata_filter.getD [])))) := by
  cases hids : truthyList ids <;> cases hmf : truthyList metadata_filter <;>
    cases hda : delete_all <;>
      simp [delete, deleteModeCount, hids, hmf, hda]

/-- Witness for C4: deleting with exactly the ids mode supplied
performs the delete-by-ids operation. -/
theorem delete_exactly_one_mode_witness :
    delete (some ["8ab544ae"]) none false =
      Except.ok (DeleteAction.deleteByIds ["8ab544ae"]) := by
  have h := delete_exactly_one_mode (some ["8ab544ae"]) none false
  exact (h.2 (by decide)).2.1 (by decide)

/-- C9: an empty ids list and an empty metadata_filter dict are falsy,
so delete with only such an argument has zero present modes and raises
the validation error instead of deleting nothing. -/
theorem delete_empty_argument_not_a_mode :
    truthyList (some ([] : List String)) = false ∧
    delete (some []) none false =
      Except.error "Provide exactly one of: ids, metadata_filter, or delete_all" ∧
    delete none (some []) false =
      Except.error "Provide exactly one of: ids, metadata_filter, or delete_all" := by
  refine ⟨rfl, rfl, rfl⟩

/-- Contiguous-substring test on character lists: the needle is a
prefix of some suffix of the haystack. -/
def isInfixCharList (needle : List Char) : List Char → Bool
  | [] => needle.isEmpty
  | b :: bs => needle.isPrefixOf (b :: bs) || isInfixCharList needle bs

/-- Substring containment test modelling the Python expression
"already exists" in str(e). -/
def containsSub (needle haystack : String) : Bool :=
  isInfixCharList needle.toList haystack.toList

/-- Embedding of VectorStore.create_index
(DB_WIP/app/database/vector_store.py lines 58 to 67): attempt the
underlying index creation (its outcome is the explicit parameter);
absorb a failure whose message contains already exists, re-raise any
other failure. -/
def create_index (underlying : Except String Unit) : Except String Unit :=
  match underlying with
  | .ok _ => .ok ()
  | .error e => if containsSub "already exists" e then .ok () else .error e

/-- C8: index creation is idempotent: an underlying already-exists
failure is absorbed into a successful no-op, a successful underlying
creation succeeds, and any other underlying failure is propagated
unchanged. -/
theorem create_index_idempotent (e : String) :
    (containsSub "already exists" e = true →
      create_index (Except.error e) = Except.ok ()) ∧
    (containsSub "already exists" e = false →
      create_index (Except.error e) = Except.error e) ∧
    create_index (Except.ok ()) = Except.ok () := by
  refine ⟨fun h => by simp [create_index, h], fun h => by simp [create_index, h], rfl⟩

/-- Witness for C8: a concrete already-exists error message is absorbed
and a concrete distinct error message is propagated. -/
theorem create_index_idempotent_witness :
    create_index (Except.error "relation idx already exists") = Except.ok () ∧
    create_index (Except.error "connection refused") =
      Except.error "connection refused" :=
  ⟨(create_index_idempotent "relation idx already exists").1 (by decide),
   (create_index_idempotent "connection refused").2.1 (by decide)⟩

/-- Character-level canonicalization step: a newline becomes a space,
every other character is unchanged. -/
def canonChar (c : Char) : Char :=
  if c = '\n' then ' ' else c

/-- Embedding of the first line of VectorStore.get_embedding
(DB_WIP/app/database/vector_store.py line 40): the Python call
text.replace with a single-character pattern rewrites each newline to a
space, i.e. acts characterwise. -/
def canonicalize (text : String) : String :=
  String.mk (text.toList.map canonChar)

/-- Embedding of VectorStore.get_embedding (DB_WIP/app/database/
vector_store.py lines 30 to 52): canonicalize the text, then submit it
to the embedding provider (the OpenAI client, modelled as an explicit
function parameter). -/
def get_embedding (provider : String → List ℚ) (text : String) : List ℚ :=
  provider (canonicalize text)

/-- Two characters agree up to the newline-versus-space distinction. -/
def nlspChar (a b : Char) : Bool :=
  a == b || (a == '\n' && b == ' ') || (a == ' ' && b == '\n')

/-- Two texts differ only in newlines versus spaces: same length and
characterwise related by nlspChar. -/
def differOnlyNewlineSpace (s t : String) : Bool :=
  s.toList.length == t.toList.length &&
    (s.toList.zip t.toList).all fun p => nlspChar p.1 p.2

/-- Characters related by nlspChar have the same canonical form. -/
theorem canonChar_eq_of_nlspChar (a b : Char) (h : nlspChar a b = true) :
    canonChar a = canonChar b := by
  simp only [nlspChar, Bool.or_eq_true, Bool.and_eq_true, beq_iff_eq] at h
  rcases h with (h | ⟨h1, h2⟩) | ⟨h1, h2⟩ <;> subst_vars <;> rfl

/-- Characterwise canonicalization of related lists agrees. -/
theorem map_canonChar_eq : ∀ (l1 l2 : List Char), l1.length = l2.length →
    ((l1.zip l2).all fun p => nlspChar p.1 p.2) = true →
    l1.map canonChar = l2.map canonChar
  | [], [], _, _ => rfl
  | [], _ :: _, hlen, _ => by simp at hlen
  | _ :: _, [], hlen, _ => by simp at hlen
  | a :: as, b :: bs, hlen, hall => by
    simp only [List.zip_cons_cons, List.all_cons, Bool.and_eq_true] at hall
    simp only [List.length_cons, Nat.succ_inj] at hlen
    simp only [List.map_cons, canonChar_eq_of_nlspChar a b hall.1,
      map_canonChar_eq as bs hlen hall.2]

/-- C10: get_embedding canonicalizes its input by turning newlines into
spaces, so two texts differing only in newlines versus spaces submit
the identical string to the embedding provider and hence receive the
same embedding from any (deterministic) provider. -/
theorem get_embedding_newline_canonical (s t : String)
    (h : differOnlyNewlineSpace s t = true) :
    canonicalize s = canonicalize t ∧
    ∀ provider : String → List ℚ, get_embedding provider s = get_embedding provider t := by
  simp only [differOnlyNewlineSpace, Bool.and_eq_true, beq_iff_eq] at h
  have hc : canonicalize s = canonicalize t :=
    congrArg String.mk (map_canonChar_eq s.toList t.toList h.1 h.2)
  exact ⟨hc, fun provider => congrArg provider hc⟩

/-- Witness for C10: a concrete pair differing only in a newline versus
a space canonicalizes identically. -/
theorem get_embedding_newline_canonical_witness :
    differOnlyNewlineSpace "Sender: Tax\nBody" "Sender: Tax Body" = true ∧
    canonicalize "Sender: Tax\nBody" = canonicalize "Sender: Tax Body" :=
  ⟨by decide, (get_embedding_newline_canonical _ _ (by decide)).1⟩

/-- Embedding of the system-message content built inside
QueryProcessor._preprocess_question (DB/app/query_processor.py line
70): a fixed instruction followed by the current date. In the source
the date argument is not a parameter of the method: it is the ambient
wall clock, read via datetime.now() inside the method body. -/
def preprocessSystemContent (ambientCurrentDate : String) : String :=
  "You are a query generator based on the user's question. The current date is "
    ++ ambientCurrentDate

/-- Embedding of the message list sent to the extraction service by
QueryProcessor._preprocess_question (DB/app/query_processor.py lines 61
to 74). The only explicit input of the Python method is the question;
ambientCurrentDate models the implicit datetime.now() read inside the
method. -/
def preprocessMessages (question : String) (ambientCurrentDate : String) :
    List (String × String) :=
  [("system", preprocessSystemContent ambientCurrentDate),
   ("user", "# User question: " ++ question)]

/-- C6 counterexample: with the explicit input (the question) held
fixed, two different ambient wall-clock dates produce different
extraction prompts, so the extracted constraints are a function of the
implicit call-time clock, not of any explicit reference-time
parameter — _preprocess_question takes no such parameter. -/
theorem preprocess_reference_time_counterexample :
    preprocessMessages "What documents arrived last week?" "2024-06-15" ≠
      preprocessMessages "What documents arrived last week?" "2024-06-16" := by
  decide

/-- Left-cancellation of string append, via the underlying character
lists. -/
theorem string_append_left_cancel {s t1 t2 : String}
    (h : s ++ t1 = s ++ t2) : t1 = t2 := by
  have hd : s.data ++ t1.data = s.data ++ t2.data := by
    have := congrArg String.data h
    simpa [String.data_append] using this
  exact String.ext (List.append_cancel_left hd)

/-- C6 amended: the extraction prompt depends on the ambient wall-clock
date read inside _preprocess_question: for a fixed question, distinct
ambient dates give distinct message lists. -/
theorem preprocess_depends_on_ambient_clock (q d1 d2 : String) (h : d1 ≠ d2) :
    preprocessMessages q d1 ≠ preprocessMessages q d2 := by
  intro hEq
  apply h
  simp only [preprocessMessages, List.cons.injEq, Prod.mk.injEq] at hEq
  exact string_append_left_cancel hEq.1.2

/-- Witness for C6 amended: two concrete distinct ambient dates yield
distinct prompts for the same concrete question. -/
theorem preprocess_depends_on_ambient_clock_witness :
    preprocessMessages "Show Immigration documents" "2024-01-01" ≠
      preprocessMessages "Show Immigration documents" "2024-12-31" :=
  preprocess_depends_on_ambient_clock
    "Show Immigration documents" "2024-01-01" "2024-12-31" (by decide)

/-- Stored row of the vector store (spec section 6): time-derived id
(modelled as a Nat creation timestamp), open metadata mapping, embedded
contents text and fixed-dimension embedding (rationals model the float
coordinates). -/
structure StoredRecord where
  id : Nat
  metadata : List (String × String)
  contents : String
  embedding : List ℚ

/-- Modelled from the spec: the distance the approximate
nearest-neighbor index ranks by (lower means more similar), taken here
as squared Euclidean distance over the paired coordinates. The claims
below do not depend on the particular metric. -/
def sqDist (a b : List ℚ) : ℚ :=
  ((a.zip b).map fun p => (p.1 - p.2) * (p.1 - p.2)).sum

/-- Ordering of scored results by their distance component. -/
def distLe (x y : StoredRecord × ℚ) : Prop :=
  x.2 ≤ y.2

instance : DecidableRel distLe :=
  fun x y => inferInstanceAs (Decidable (x.2 ≤ y.2))

instance : IsTotal (StoredRecord × ℚ) distLe :=
  ⟨fun a b => le_total a.2 b.2⟩

instance : IsTrans (StoredRecord × ℚ) distLe :=
  ⟨fun _ _ _ h1 h2 => le_trans h1 h2⟩

/-- Keyword arguments assembled by VectorStore.search
(DB_WIP/app/database/vector_store.py lines 139 to 152) before calling
the underlying client. -/
structure SearchArgs where
  limit : Nat
  filter : Option (List (String × String))
  predicates : Option Predicates
  uuid_time_filter : Option (Nat × Nat)

/-- Embedding of the argument assembly in VectorStore.search: each
optional argument is added only when truthy in Python (an empty
metadata_filter dict is falsy; a Predicates object and a 2-tuple time
range are always truthy when not None). -/
def buildSearchArgs (limit : Nat) (metadata_filter : Option (List (String × String)))
    (predicates : Option Predicates) (time_range : Option (Nat × Nat)) : SearchArgs :=
  { limit := limit
    filter :=
      match metadata_filter with
      | some f => if f.isEmpty then none else some f
      | none => none
    predicates := predicates
    uuid_time_filter := time_range }

/-- A record passes an optional predicate tree (no tree means no
restriction). -/
def passesPredicates (p : Option Predicates) (md : List (String × String)) : Bool :=
  match p with
  | none => true
  | some p => p.eval md

/-- A record passes an optional equality-based metadata filter. -/
def passesFilter (f : Option (List (String × String))) (md : List (String × String)) : Bool :=
  match f with
  | none => true
  | some kvs => kvs.all fun kv => md.lookup kv.1 == some kv.2

/-- A record passes an optional time range, applied against the
creation time embedded in its id. -/
def passesTimeRange (tr : Option (Nat × Nat)) (r : StoredRecord) : Bool :=
  match tr with
  | none => true
  | some se => decide (se.1 ≤ r.id) && decide (r.id ≤ se.2)

/-- Modelled from the spec: timescale_vector client.Sync.search (the
external approximate-nearest-neighbor search, not in src/): restrict
the stored records to those passing the predicate, metadata filter and
time range (pre-filter semantics), rank the survivors by ascending
distance to the query embedding, and return at most limit of them. -/
def clientSearch (store : List StoredRecord) (queryEmbedding : List ℚ)
    (args : SearchArgs) : List (StoredRecord × ℚ) :=
  (((store.filter fun r =>
        passesPredicates args.predicates r.metadata &&
        passesFilter args.filter r.metadata &&
        passesTimeRange args.uuid_time_filter r).map
      fun r => (r, sqDist queryEmbedding r.embedding)).insertionSort distLe).take
    args.limit

/-- Embedding of VectorStore.search (DB_WIP/app/database/
vector_store.py lines 87 to 161): embed the query text via
get_embedding, assemble the search arguments, and delegate to the
underlying client search. The DataFrame conversion on return is
row-per-result and order-preserving, so results are modelled as the
raw scored list. -/
def search (store : List StoredRecord) (provider : String → List ℚ)
    (query_text : String) (limit : Nat)
    (metadata_filter : Option (List (String × String)))
    (predicates : Option Predicates) (time_range : Option (Nat × Nat)) :
    List (StoredRecord × ℚ) :=
  clientSearch store (get_embedding provider query_text)
    (buildSearchArgs limit metadata_filter predicates time_range)

/-- C5: every search call returns at most limit results, ordered by
non-decreasing distance. -/
theorem search_limit_and_sorted (store : List StoredRecord)
    (provider : String → List ℚ) (query_text : String) (limit : Nat)
    (metadata_filter : Option (List (String × String)))
    (predicates : Option Predicates) (time_range : Option (Nat × Nat)) :
    (search store provider query_text limit metadata_filter predicates time_range).length
      ≤ limit ∧
    List.Sorted distLe
      (search store provider query_text limit metadata_filter predicates time_range) := by
  constructor
  · simp only [search, clientSearch, List.length_take, buildSearchArgs]
    exact Nat.min_le_left _ _
  · exact List.Pairwise.sublist (List.take_sublist _ _)
      (List.sorted_insertionSort distLe _)

/-- Follows the spec's words: a pure similarity search ranks the whole
store by ascending distance to the query embedding with no metadata
predicate and no filtering, returning at most limit results. -/
def pureSimilaritySearch (store : List StoredRecord) (queryEmbedding : List ℚ)
    (limit : Nat) : List (StoredRecord × ℚ) :=
  (((store.map fun r => (r, sqDist queryEmbedding r.embedding)).insertionSort
      distLe).take limit)

/-- C3: with neither sender nor addressed_to present the builder
returns no predicate, and the subsequent search (no metadata filter, no
time range) coincides with the pure unfiltered similarity search. -/
theorem build_predicates_empty_unfiltered (pre : UserQuestionPreprocessing)
    (hs : pre.sender = none) (ha : pre.addressed_to = none) :
    buildPredicates pre = none ∧
    ∀ (store : List StoredRecord) (provider : String → List ℚ)
      (query_text : String) (limit : Nat),
      search store provider query_text limit none (buildPredicates pre) none =
        pureSimilaritySearch store (get_embedding provider query_text) limit := by
  have hb : buildPredicates pre = none := build_predicates_empty pre hs ha
  refine ⟨hb, fun store provider query_text limit => ?_⟩
  rw [hb]
  simp [search, clientSearch, pureSimilaritySearch, buildSearchArgs,
    passesPredicates, passesFilter, passesTimeRange]

/-- Witness for C3: the empty constraint set builds no predicate, and
on a concrete one-record store the search equals the unfiltered
similarity search. -/
theorem build_predicates_empty_unfiltered_witness :
    buildPredicates ⟨"any documents?", none, none, none⟩ = none ∧
    search [⟨1, [("sender", "Tax")], "Body", [1]⟩] (fun _ => [0])
        "any documents?" 3 none
        (buildPredicates ⟨"any documents?", none, none, none⟩) none =
      pureSimilaritySearch [⟨1, [("sender", "Tax")], "Body", [1]⟩] [0] 3 :=
  ⟨(build_predicates_empty_unfiltered ⟨"any documents?", none, none, none⟩ rfl rfl).1,
   (build_predicates_empty_unfiltered ⟨"any documents?", none, none, none⟩ rfl rfl).2
     [⟨1, [("sender", "Tax")], "Body", [1]⟩] (fun _ => [0]) "any documents?" 3⟩

/-- The fixed column subset passed by Synthesizer.generate_response to
dataframe_to_json (DB/app/services/synthesizer.py lines 55 to 66). -/
def columns_to_keep : List String :=
  ["title_in_english",
   "title_in_original_language",
   "sender",
   "sent_date",
   "addressed_to",
   "summary_in_english",
   "required_actions"]

/-- A retrieved context row as iterated by
Synthesizer.dataframe_to_json: the contents column (the embedded body
text) plus the metadata mapping. The DataFrame row also carries the
embedding column, which dataframe_to_json never reads. -/
structure ContextRow where
  contents : String
  metadata : List (String × String)

/-- Embedding of the per-row dict built by Synthesizer.dataframe_to_json
(DB/app/services/synthesizer.py lines 98 to 106): the key content bound
to the row contents, then one entry per kept column actually present in
the metadata, bound to its metadata value. -/
def dataframeToJsonRecord (cols : List String) (row : ContextRow) :
    List (String × String) :=
  ("content", row.contents) ::
    (cols.filter fun k => (row.metadata.lookup k).isSome).map
      fun k => (k, (row.metadata.lookup k).getD "")

/-- Embedding of Synthesizer.dataframe_to_json over the whole retrieved
context: one record per row, serialized to JSON in the source (the
serialization is key-preserving, so the records themselves are the
model). -/
def dataframe_to_json (cols : List String) (context : List ContextRow) :
    List (List (String × String)) :=
  context.map (dataframeToJsonRecord cols)

/-- C7: every key of every record sent to the language model by the
synthesizer lies in the fixed subset consisting of content plus the
seven kept metadata columns; in particular no record ever carries the
key embedding, so the raw embedding vector is never sent. -/
theorem synthesizer_projection (context : List ContextRow)
    (rec : List (String × String))
    (hrec : rec ∈ dataframe_to_json columns_to_keep context)
    (k v : String) (hk : (k, v) ∈ rec) :
    k ∈ "content" :: columns_to_keep ∧ k ≠ "embedding" := by
  rcases List.mem_map.mp hrec with ⟨row, _, rfl⟩
  have hmem : k ∈ "content" :: columns_to_keep := by
    rcases List.mem_cons.mp hk with h | h
    · rw [show k = "content" from congrArg Prod.fst h]
      exact List.mem_cons_self _ _
    · rcases List.mem_map.mp h with ⟨k2, hk2, heq⟩
      have : k2 = k := congrArg Prod.fst heq
      subst this
      exact List.mem_cons_of_mem _ (List.mem_of_mem_filter hk2)
  refine ⟨hmem, fun hembed => ?_⟩
  rw [hembed] at hmem
  have : ("embedding" : String) ∉ "content" :: columns_to_keep := by decide
  exact this hmem

/-- Witness for C7: on a concrete one-row context whose metadata holds
a sender, the projected record's sender key is among the kept columns
and differs from embedding. -/
theorem synthesizer_projection_witness :
    ("sender" : String) ∈ "content" :: columns_to_keep ∧
    ("sender" : String) ≠ "embedding" :=
  synthesizer_projection [⟨"Body text", [("sender", "Tax")]⟩]
    [("content", "Body text"), ("sender", "Tax")] (by decide)
    "sender" "Tax" (by decide)

end AIHackathon
